import Mathlib

/-!
Verification of the slot reservation subsystem of the pro-slot-flow marketplace
application.  The definitions below are a shallow embedding of the relevant
TypeScript source:

* `src/pages/Cart.tsx` — the `useProviderAvailability` hook: `getAvailableSlots`,
  `holdSlot`, `releaseSlot` (lines 353–416);
* `src/pages/TimeSelection.tsx` — `fetchAvailableSlots`, `handleSlotSelect`,
  `handleProceedToPayment`, `handleSlotExpired` and the `SlotCountdownTimer`
  usage (lines 52–162, 292–313);
* `supabase/functions/verify-payment/index.ts` — the payment verification
  handler.

The persistent store (a supabase/PostgREST `booking_slots` table) is modelled
as a list of records.  A store round-trip either succeeds or fails with a
transient infrastructure error; this is modelled by a `storeOk : Bool`
parameter standing for whether the call raised an error.  A crucial, faithful
detail of the client library: an `update ... .eq(...)` call that matches zero
rows is NOT an error — PostgREST reports success with zero affected rows, and
the source never inspects the affected count, only the `error` field.
Timestamps are milliseconds since epoch, as `Nat` (`Date.now()` semantics).
-/

/-- Status of a booking slot, from the `status` column
(`'available' | 'held' | 'booked' | 'blocked'`, Cart.tsx line 269). -/
inductive SlotStatus
  | available
  | held
  | booked
  | blocked
deriving DecidableEq

/-- One row of the `booking_slots` table, restricted to the columns the
reservation subsystem reads or writes.  `displayOrder` is the joined
`time_slot.display_order` key used by the query's `order(...)` clause; the
spec's data model treats it as the time-of-day ordering value.  Columns never
touched by the subsystem (`service_id`, `booking_id`, `blocked_by`,
`created_at`, ...) are elided. -/
structure BookingSlot where
  id : String
  provider_id : String
  date : String
  displayOrder : Nat
  status : SlotStatus
  held_by : Option String
  hold_expires_at : Option Nat
deriving DecidableEq

/-- The row transformation of the conditional update issued by `holdSlot`
(Cart.tsx lines 379–387): `update {status:'held', held_by:userId,
hold_expires_at: now+7min} .eq('id', slotId) .eq('status','available')`.
Rows not matching both filters are untouched. -/
def holdUpdate (slotId userId : String) (now : Nat) (s : BookingSlot) : BookingSlot :=
  if s.id = slotId ∧ s.status = SlotStatus.available then
    { s with status := SlotStatus.held
           , held_by := some userId
           , hold_expires_at := some (now + 7 * 60 * 1000) }
  else s

/-- `holdSlot` (Cart.tsx lines 375–395).  Issues the conditional update and
returns `true` unless the store call raised an error (`if (error) throw;
return true` / `catch { return false }`).  The affected-row count is never
inspected: a zero-row match is not an error, so the result is `true` whenever
`storeOk` holds, regardless of whether any row was updated.  Returns the new
store contents and the boolean result. -/
def holdSlot (slotId userId : String) (now : Nat) (storeOk : Bool)
    (store : List BookingSlot) : List BookingSlot × Bool :=
  if storeOk then (store.map (holdUpdate slotId userId now), true)
  else (store, false)

/-- The row transformation of the conditional update issued by `releaseSlot`
(Cart.tsx lines 400–408): `update {status:'available', held_by:null,
hold_expires_at:null} .eq('id', slotId) .eq('held_by', userId)`.  Note the
filter is on `held_by` only (besides the id) — there is no status filter. -/
def releaseUpdate (slotId userId : String) (s : BookingSlot) : BookingSlot :=
  if s.id = slotId ∧ s.held_by = some userId then
    { s with status := SlotStatus.available
           , held_by := none
           , hold_expires_at := none }
  else s

/-- `releaseSlot` (Cart.tsx lines 398–416).  Same error convention as
`holdSlot`: `true` iff the store call raised no error. -/
def releaseSlot (slotId userId : String) (storeOk : Bool)
    (store : List BookingSlot) : List BookingSlot × Bool :=
  if storeOk then (store.map (releaseUpdate slotId userId), true)
  else (store, false)

/-- The row filter of the query in `getAvailableSlots` (Cart.tsx lines
355–364): `.eq('provider_id', providerId) .eq('date', date)
.eq('status', 'available')`. -/
def availQuery (providerId date : String) (s : BookingSlot) : Bool :=
  decide (s.provider_id = providerId ∧ s.date = date ∧
          s.status = SlotStatus.available)

/-- Ordering relation of the query's `order('time_slot.display_order')`
clause. -/
def slotLE (a b : BookingSlot) : Prop :=
  a.displayOrder ≤ b.displayOrder

instance : DecidableRel slotLE :=
  fun a b => Nat.decLe a.displayOrder b.displayOrder

instance : IsTotal BookingSlot slotLE :=
  ⟨fun a b => Nat.le_total a.displayOrder b.displayOrder⟩

instance : IsTrans BookingSlot slotLE :=
  ⟨fun _ _ _ hab hbc => Nat.le_trans hab hbc⟩

/-- `getAvailableSlots` (Cart.tsx lines 353–372).  Queries the matching rows
ordered by display order; on a store error the `catch` block logs and returns
the empty list (`return []`) — no error value reaches the caller. -/
def getAvailableSlots (providerId date : String) (storeOk : Bool)
    (store : List BookingSlot) : List BookingSlot :=
  if storeOk then List.insertionSort slotLE (store.filter (availQuery providerId date))
  else []

/-- Result of `fetchAvailableSlots`: the slot list shown to the user, the
number of slot-generation RPC calls actually issued, and the forward window
(in days) computed for generation when the first query came back empty. -/
structure FetchResult where
  slots : List BookingSlot
  generationCalls : Nat
  windowDays : Option Nat
deriving DecidableEq

/-- `fetchAvailableSlots` (TimeSelection.tsx lines 52–101).  Queries the
slots; if none exist it computes `endDate = selectedDate + 14` days
(lines 66–67), but the generation RPC itself is commented out (lines 69–73,
"TODO: Re-enable slot generation when function is available"), so zero
generation calls are issued and the function merely re-queries (line 86). -/
def fetchAvailableSlots (providerId date : String) (storeOk : Bool)
    (store : List BookingSlot) : FetchResult :=
  let slots := getAvailableSlots providerId date storeOk store
  if slots.isEmpty then
    let requeried := getAvailableSlots providerId date storeOk store
    ⟨requeried, 0, some 14⟩
  else
    ⟨slots, 0, none⟩

/-- The client-side React state of the `TimeSelection` page that the
reservation flow reads and writes: `selectedSlot` and `heldSlot`. -/
structure ClientState where
  selectedSlot : Option BookingSlot
  heldSlot : Option BookingSlot
deriving DecidableEq

/-- Outcome of one `handleSlotSelect` interaction: the new client state, the
new store contents, whether `holdSlot` reported success, and whether the
failure branch re-fetched the slot list (`fetchAvailableSlots()` on
line 133). -/
structure SelectOutcome where
  client : ClientState
  store : List BookingSlot
  succeeded : Bool
  refreshed : Bool
deriving DecidableEq

/-- `handleSlotSelect` (TimeSelection.tsx lines 103–135).  Unauthenticated
users are rejected before any store call.  If a different slot is already
held client-side, it is released first (lines 113–116, result ignored); then
the new slot is held.  On success both `selectedSlot` and `heldSlot` are set
to the new slot; on failure the client state is left unchanged and the slot
list is refreshed.  `releaseOk`/`holdOk` model whether the respective store
round-trips raise an error. -/
def handleSlotSelect (user : Option String) (slot : BookingSlot)
    (now : Nat) (releaseOk holdOk : Bool)
    (cs : ClientState) (store : List BookingSlot) : SelectOutcome :=
  match user with
  | none => ⟨cs, store, false, false⟩
  | some u =>
    let store1 :=
      match cs.heldSlot with
      | some h => if h.id ≠ slot.id then (releaseSlot h.id u releaseOk store).1 else store
      | none => store
    let held := holdSlot slot.id u now holdOk store1
    if held.2 then
      ⟨⟨some slot, some slot⟩, held.1, true, false⟩
    else
      ⟨cs, held.1, false, true⟩

/-- `handleProceedToPayment` (TimeSelection.tsx lines 137–148).  If both
`selectedSlot` and `heldSlot` are set it navigates to the cart, passing the
held slot as the booking payload; otherwise it does nothing.  The function
performs no comparison of the current time against the hold deadline — its
result does not depend on any clock. -/
def handleProceedToPayment (cs : ClientState) : Option BookingSlot :=
  match cs.selectedSlot, cs.heldSlot with
  | some _, some h => some h
  | _, _ => none

/-- Outcome classes of the `verify-payment` edge function. -/
inductive VerifyOutcome
  | success
  | failed
  | error
deriving DecidableEq

/-- The `verify-payment` handler (supabase/functions/verify-payment/index.ts).
It authenticates the caller, requires a session id, retrieves the checkout
session and branches only on `session.payment_status === 'paid'`
(lines 69–95).  It reads no slot record and takes no deadline input. -/
def verifyPayment (hasAuth hasSession : Bool) (paymentStatus : String) :
    VerifyOutcome :=
  if !hasAuth then VerifyOutcome.error
  else if !hasSession then VerifyOutcome.error
  else if paymentStatus = "paid" then VerifyOutcome.success
  else VerifyOutcome.failed

/-- `handleSlotExpired` (TimeSelection.tsx lines 150–162): on expiry, if a
slot is held and the user is authenticated, release it in the store and clear
both client-side slot fields. -/
def handleSlotExpired (user : Option String) (releaseOk : Bool)
    (cs : ClientState) (store : List BookingSlot) :
    ClientState × List BookingSlot :=
  match cs.heldSlot, user with
  | some h, some u => (⟨none, none⟩, (releaseSlot h.id u releaseOk store).1)
  | _, _ => (cs, store)

/-- The deadline handed to the countdown timer when the held-slot card is
rendered (TimeSelection.tsx line 300):
`expiresAt={new Date(Date.now() + 7 * 60 * 1000).toISOString()}` — computed
from the clock at render time, not read from the held slot's
`hold_expires_at`. -/
def countdownExpiresAt (renderNow : Nat) : Nat :=
  renderNow + 7 * 60 * 1000

/-- Modelled from the spec: the `SlotCountdownTimer` component
(`@/components/SlotCountdownTimer`) is imported by TimeSelection.tsx but its
source is not among the provided files.  Per spec §4.3 it is a repeating
one-second tick that computes `remaining = deadline − now`, fires the expiry
signal exactly once when remaining ≤ 0 and then stops; cancellation
(release/confirm before the deadline) tears it down without firing.  A torn
down or already-fired timer is `stopped`. -/
structure NotifierState where
  deadline : Nat
  stopped : Bool
deriving DecidableEq

/-- Modelled from the spec: one tick of the countdown notifier at clock value
`now` — if the timer is still live and the deadline has passed, fire (snd =
`true`) and stop; otherwise do nothing. -/
def notifierTick (st : NotifierState) (now : Nat) : NotifierState × Bool :=
  if st.stopped then (st, false)
  else if st.deadline ≤ now then ({ st with stopped := true }, true)
  else (st, false)

/-- Modelled from the spec: run the notifier over a sequence of tick times,
returning the final state and the total number of expiry firings. -/
def notifierRun (st : NotifierState) (times : List Nat) : NotifierState × Nat :=
  match times with
  | [] => (st, 0)
  | t :: ts =>
    let step := notifierTick st t
    let rest := notifierRun step.1 ts
    (rest.1, (if step.2 then 1 else 0) + rest.2)

/-- The spec's record invariant (§3): holder identifier and hold-deadline are
both present or both absent, and their presence is equivalent to
`status = held`. -/
def slotInv (s : BookingSlot) : Prop :=
  (s.held_by.isSome ↔ s.status = SlotStatus.held) ∧
  (s.hold_expires_at.isSome ↔ s.status = SlotStatus.held)

instance (s : BookingSlot) : Decidable (slotInv s) := by
  unfold slotInv; infer_instance

/-- Concrete fixture: an available slot `s1` of provider `p1`. -/
def availS1 : BookingSlot :=
  ⟨"s1", "p1", "2025-03-01", 1, SlotStatus.available, none, none⟩

/-- Concrete fixture: slot `s1` already held by `userB` (deadline 420000 ms). -/
def heldByB : BookingSlot :=
  ⟨"s1", "p1", "2025-03-01", 1, SlotStatus.held, some "userB", some 420000⟩

/-- Concrete fixture: slot `s1` held by `u1` (deadline 420000 ms). -/
def heldByU1 : BookingSlot :=
  ⟨"s1", "p1", "2025-03-01", 1, SlotStatus.held, some "u1", some 420000⟩

/-- Concrete fixture: a second available slot `s2` of provider `p1`. -/
def availS2 : BookingSlot :=
  ⟨"s2", "p1", "2025-03-01", 2, SlotStatus.available, none, none⟩

/-! ### Helper lemmas -/

lemma holdUpdate_id (slotId userId : String) (now : Nat) (s : BookingSlot) :
    (holdUpdate slotId userId now s).id = s.id := by
  unfold holdUpdate; split <;> rfl

lemma releaseUpdate_id (slotId userId : String) (s : BookingSlot) :
    (releaseUpdate slotId userId s).id = s.id := by
  unfold releaseUpdate; split <;> rfl

lemma releaseUpdate_idem (slotId userId : String) (s : BookingSlot) :
    releaseUpdate slotId userId (releaseUpdate slotId userId s) =
      releaseUpdate slotId userId s := by
  unfold releaseUpdate
  by_cases hc : s.id = slotId ∧ s.held_by = some userId
  · rw [if_pos hc, if_neg (by simp)]
  · rw [if_neg hc, if_neg hc]

lemma holdUpdate_inv (slotId userId : String) (now : Nat) (s : BookingSlot)
    (h : slotInv s) : slotInv (holdUpdate slotId userId now s) := by
  unfold holdUpdate; split
  · exact ⟨by simp, by simp⟩
  · exact h

lemma releaseUpdate_inv (slotId userId : String) (s : BookingSlot)
    (h : slotInv s) : slotInv (releaseUpdate slotId userId s) := by
  unfold releaseUpdate; split
  · exact ⟨by simp, by simp⟩
  · exact h

/-! ### Claim C1 -/

/-- Claim C1 (refuted; code bug): `holdSlot` does not report `unavailable`
when zero records were affected.  In a store where `s1` is already held by
`userB`, `holdSlot "s1" "userA"` leaves the store unchanged (zero rows match
the `status = available` filter) yet still returns `true`, because a zero-row
conditional update raises no error and the source checks only the error
field.  Consequently, in a race where `userA` wins and `userB` then attempts
the hold, the loser also observes `true` — not the claimed
at-most-one-success. -/
theorem holdSlot_true_despite_zero_affected :
    holdSlot "s1" "userA" 0 true [heldByB] = ([heldByB], true) ∧
    (holdSlot "s1" "userB" 60000 true
      (holdSlot "s1" "userA" 0 true [availS1]).1).2 = true := by
  constructor
  · rfl
  · rfl

/-! ### Claim C2 -/

/-- Claim C2 (refuted; code bug): confirming a hold past its deadline is not
rejected.  With slot `s1` held by `u1` with deadline 420000 ms and current
time 500000 ms (deadline passed, client timer not yet fired, so the client
state still carries the held slot), `handleProceedToPayment` still hands the
held slot off to the booking/payment flow — it consults no clock — and
`verify-payment` branches only on the payment status, taking no slot or
deadline input at all.  No store-side deadline predicate exists on the
confirm path. -/
theorem confirm_after_deadline_hands_off :
    handleProceedToPayment ⟨some heldByU1, some heldByU1⟩ = some heldByU1 ∧
    heldByU1.hold_expires_at = some 420000 ∧ 420000 < 500000 ∧
    verifyPayment true true "paid" = VerifyOutcome.success := by
  exact ⟨rfl, rfl, by decide, rfl⟩

/-! ### Claim C6 -/

/-- Claim C6 (counterexample): a store failure is not propagated as an error
distinct from the empty-availability outcome.  With an available matching
slot in the store but the store unreachable, `getAvailableSlots` returns `[]`
— exactly the same value it returns for a reachable store with no
availability. -/
theorem store_failure_indistinguishable_from_empty :
    getAvailableSlots "p1" "2025-03-01" false [availS1] = [] ∧
    getAvailableSlots "p1" "2025-03-01" true [] = [] := by
  exact ⟨rfl, rfl⟩

/-- Claim C6 (amended): when the store is unreachable `getAvailableSlots`
catches the error and returns the empty list for every input — the same
value as the valid no-availability outcome; no error value reaches the
caller. -/
theorem getAvailableSlots_swallows_store_failure (providerId date : String)
    (store : List BookingSlot) :
    getAvailableSlots providerId date false store = [] ∧
    getAvailableSlots providerId date false store =
      getAvailableSlots providerId date true [] := by
  exact ⟨rfl, rfl⟩

/-! ### Claim C4 -/

/-- Claim C4 (counterexample): with no slots in the store for the requested
provider and date, `fetchAvailableSlots` issues zero slot-generation calls —
the generation RPC is commented out in the source — even though it computes
the 14-day window; the claim's generation step is never triggered. -/
theorem fetch_triggers_no_generation :
    fetchAvailableSlots "p1" "2025-03-01" true [] =
      ⟨[], 0, some 14⟩ := by
  rfl

/-- Claim C4 (amended): the slot query returns exactly the store's records
matching (provider, date, status = available), ordered ascending by the
time-slot display-order key; when the query comes back empty,
`fetchAvailableSlots` computes the fixed 14-day forward window but issues
zero generation calls (the generation RPC is disabled in the source) and
simply re-queries, returning the re-query result. -/
theorem fetch_sorted_query_and_disabled_generation (providerId date : String)
    (ok : Bool) (store : List BookingSlot) :
    (fetchAvailableSlots providerId date ok store).generationCalls = 0 ∧
    (fetchAvailableSlots providerId date ok store).slots =
      getAvailableSlots providerId date ok store ∧
    (getAvailableSlots providerId date ok store = [] →
      (fetchAvailableSlots providerId date ok store).windowDays = some 14) ∧
    List.Sorted slotLE (getAvailableSlots providerId date true store) ∧
    (∀ s, s ∈ getAvailableSlots providerId date true store ↔
      (s ∈ store ∧ s.provider_id = providerId ∧ s.date = date ∧
        s.status = SlotStatus.available)) := by
  refine ⟨?_, ?_, ?_, ?_, ?_⟩
  · unfold fetchAvailableSlots
    dsimp only
    split <;> rfl
  · unfold fetchAvailableSlots
    dsimp only
    split <;> rfl
  · intro hempty
    unfold fetchAvailableSlots
    dsimp only
    rw [hempty]
    rfl
  · show List.Sorted slotLE (List.insertionSort slotLE _)
    exact List.sorted_insertionSort slotLE _
  · intro s
    show s ∈ List.insertionSort slotLE _ ↔ _
    rw [(List.perm_insertionSort slotLE _).mem_iff, List.mem_filter]
    unfold availQuery
    simp [and_assoc]

/-- Witness for the C4 theorem at a concrete input: on an empty store the
query is empty and the computed window is 14 days. -/
theorem fetch_sorted_query_witness :
    (fetchAvailableSlots "p1" "2025-03-01" true []).windowDays = some 14 :=
  (fetch_sorted_query_and_disabled_generation "p1" "2025-03-01" true []).2.2.1 rfl

/-! ### Claim C3 -/

/-- Claim C3 (confirmed): `holdSlot` is a guarded compare-and-set.  For every
position `i` of the store, if the record there matches the conditional
predicate (`id = slotId` and `status = available`) the update transitions it
to `held` with `held_by = userId` and `hold_expires_at = now + 7 minutes`,
leaving every other field unchanged; any record not matching the predicate —
in particular any record that is no longer `available` — is left completely
untouched.  The predicate is applied by the store at update time (modelled as
a single atomic map over the store), never as a separate read followed by an
unguarded write. -/
theorem holdSlot_is_guarded_cas (slotId userId : String) (now : Nat)
    (store : List BookingSlot) (i : Nat) (old : BookingSlot)
    (hget : store[i]? = some old) :
    (old.id = slotId ∧ old.status = SlotStatus.available →
      ((holdSlot slotId userId now true store).1)[i]? =
        some { old with status := SlotStatus.held
                      , held_by := some userId
                      , hold_expires_at := some (now + 7 * 60 * 1000) }) ∧
    (¬ (old.id = slotId ∧ old.status = SlotStatus.available) →
      ((holdSlot slotId userId now true store).1)[i]? = some old) := by
  constructor
  · intro hcond
    show (store.map (holdUpdate slotId userId now))[i]? = _
    rw [List.getElem?_map, hget]
    unfold holdUpdate
    simp only [Option.map_some']
    rw [if_pos hcond]
  · intro hcond
    show (store.map (holdUpdate slotId userId now))[i]? = _
    rw [List.getElem?_map, hget]
    unfold holdUpdate
    simp only [Option.map_some']
    rw [if_neg hcond]

/-- Witness for the C3 theorem: holding the concrete available slot `s1` at
time 0 produces exactly the held record with holder `u1` and deadline
420000 ms. -/
theorem holdSlot_is_guarded_cas_witness :
    ([availS1][0]? = some availS1) ∧
    ((holdSlot "s1" "u1" 0 true [availS1]).1)[0]? = some heldByU1 :=
  ⟨rfl, (holdSlot_is_guarded_cas "s1" "u1" 0 [availS1] 0 availS1 rfl).1
    (by exact ⟨rfl, rfl⟩)⟩

/-! ### Claim C5 -/

/-- Claim C5 (confirmed): under the record invariant, `releaseSlot` (with the
store reachable) reports the same outcome class (`true`) on every call; a
slot held by `userId` with the matching id is transitioned back to
`available` with holder and deadline cleared; a slot whose status is
`available` or `booked` is left untouched (a no-op, not an error), as is any
slot whose holder is not `userId`; and the whole operation is idempotent —
repeating it returns exactly the same store and outcome. -/
theorem releaseSlot_conditional_and_idempotent (slotId userId : String)
    (store : List BookingSlot) (hinv : ∀ s ∈ store, slotInv s) :
    (releaseSlot slotId userId true store).2 = true ∧
    (∀ s ∈ store, s.id = slotId → s.held_by = some userId →
      (releaseUpdate slotId userId s).status = SlotStatus.available ∧
      (releaseUpdate slotId userId s).held_by = none ∧
      (releaseUpdate slotId userId s).hold_expires_at = none ∧
      releaseUpdate slotId userId s ∈ (releaseSlot slotId userId true store).1) ∧
    (∀ s ∈ store, s.status = SlotStatus.available ∨ s.status = SlotStatus.booked →
      releaseUpdate slotId userId s = s) ∧
    (∀ s ∈ store, s.held_by ≠ some userId → releaseUpdate slotId userId s = s) ∧
    releaseSlot slotId userId true (releaseSlot slotId userId true store).1 =
      releaseSlot slotId userId true store := by
  refine ⟨rfl, ?_, ?_, ?_, ?_⟩
  · intro s hs hid hheld
    refine ⟨?_, ?_, ?_, ?_⟩
    · unfold releaseUpdate; rw [if_pos ⟨hid, hheld⟩]
    · unfold releaseUpdate; rw [if_pos ⟨hid, hheld⟩]
    · unfold releaseUpdate; rw [if_pos ⟨hid, hheld⟩]
    · show _ ∈ store.map (releaseUpdate slotId userId)
      exact List.mem_map_of_mem _ hs
  · intro s hs hstat
    have hheld : s.held_by = none := by
      rcases (hinv s hs).1 with ⟨h1, _⟩
      cases hcase : s.held_by with
      | none => rfl
      | some v =>
        exfalso
        have := h1 (by rw [hcase]; rfl)
        rcases hstat with h2 | h2 <;> rw [h2] at this <;> exact SlotStatus.noConfusion this
    unfold releaseUpdate
    rw [if_neg (by rw [hheld]; rintro ⟨-, h⟩; exact Option.noConfusion h)]
  · intro s _ hheld
    unfold releaseUpdate
    rw [if_neg (by rintro ⟨-, h⟩; exact hheld h)]
  · show ((store.map (releaseUpdate slotId userId)).map (releaseUpdate slotId userId), true)
      = (store.map (releaseUpdate slotId userId), true)
    rw [List.map_map]
    exact congrArg (fun l => (l, true))
      (List.map_congr_left (fun s _ => releaseUpdate_idem slotId userId s))

/-- Witness for the C5 theorem: releasing the concrete slot `s1` held by `u1`
clears it back to available in the store. -/
theorem releaseSlot_conditional_witness :
    (∀ s ∈ [heldByU1], slotInv s) ∧
    releaseUpdate "s1" "u1" heldByU1 ∈ (releaseSlot "s1" "u1" true [heldByU1]).1 :=
  ⟨by decide,
    ((releaseSlot_conditional_and_idempotent "s1" "u1" [heldByU1]
      (by decide)).2.1 heldByU1 (by simp) rfl rfl).2.2.2⟩

/-! ### Claim C8 -/

/-- Claim C8 (confirmed): both store operations of the reservation manager
preserve the record invariant — holder identifier and hold-deadline are each
present exactly when the status is `held` (hence both present or both
absent).  This holds whether or not the store round-trip succeeds, and for
every record of the store. -/
theorem operations_preserve_slot_invariant (slotId userId : String)
    (now : Nat) (ok : Bool) (store : List BookingSlot)
    (hinv : ∀ s ∈ store, slotInv s) :
    (∀ s ∈ (holdSlot slotId userId now ok store).1, slotInv s) ∧
    (∀ s ∈ (releaseSlot slotId userId ok store).1, slotInv s) := by
  cases ok with
  | false => exact ⟨hinv, hinv⟩
  | true =>
    constructor
    · intro s hs
      rcases List.mem_map.mp hs with ⟨t, ht, rfl⟩
      exact holdUpdate_inv slotId userId now t (hinv t ht)
    · intro s hs
      rcases List.mem_map.mp hs with ⟨t, ht, rfl⟩
      exact releaseUpdate_inv slotId userId t (hinv t ht)

/-- Witness for the C8 theorem: holding the concrete available slot preserves
the invariant on the resulting store. -/
theorem operations_preserve_slot_invariant_witness :
    (∀ s ∈ [availS1, heldByB], slotInv s) ∧
    (∀ s ∈ (holdSlot "s1" "u1" 0 true [availS1, heldByB]).1, slotInv s) :=
  ⟨by decide,
    (operations_preserve_slot_invariant "s1" "u1" 0 true [availS1, heldByB]
      (by decide)).1⟩

/-! ### Claim C7 -/

lemma notifierRun_stopped (st : NotifierState) (ts : List Nat)
    (hst : st.stopped = true) : notifierRun st ts = (st, 0) := by
  induction ts with
  | nil => rfl
  | cons t ts ih =>
    show (let step := notifierTick st t
          let rest := notifierRun step.1 ts
          (rest.1, (if step.2 then 1 else 0) + rest.2)) = (st, 0)
    rw [show notifierTick st t = (st, false) by unfold notifierTick; rw [if_pos hst]]
    simpa using ih

lemma notifierRun_count (D : Nat) (ts : List Nat) :
    (notifierRun ⟨D, false⟩ ts).2 =
      if ts.any (fun t => decide (D ≤ t)) then 1 else 0 := by
  induction ts with
  | nil => rfl
  | cons t ts ih =>
    by_cases hDt : D ≤ t
    · have hstep : notifierTick ⟨D, false⟩ t = (⟨D, true⟩, true) := by
        unfold notifierTick
        rw [if_neg (by exact Bool.false_ne_true), if_pos hDt]
      show (let step := notifierTick ⟨D, false⟩ t
            let rest := notifierRun step.1 ts
            (rest.1, (if step.2 then 1 else 0) + rest.2)).2 = _
      rw [hstep]
      dsimp only
      rw [show (notifierRun ⟨D, true⟩ ts) = (⟨D, true⟩, 0) from
        notifierRun_stopped ⟨D, true⟩ ts rfl]
      simp [hDt]
    · have hstep : notifierTick ⟨D, false⟩ t = (⟨D, false⟩, false) := by
        unfold notifierTick
        rw [if_neg (by exact Bool.false_ne_true), if_neg hDt]
      show (let step := notifierTick ⟨D, false⟩ t
            let rest := notifierRun step.1 ts
            (rest.1, (if step.2 then 1 else 0) + rest.2)).2 = _
      rw [hstep]
      dsimp only
      simpa [hDt] using ih

/-- Claim C7 (counterexample): the countdown is not started with the hold's
acquisition deadline.  Acquiring the hold on `s1` at time 0 stores the
absolute deadline 420000 ms on the slot, but if the held-slot card renders at
time 1000 the timer receives `Date.now() + 7min = 421000`, a different
deadline — the `expiresAt` prop is recomputed from the clock at render time
instead of read from the hold. -/
theorem countdown_deadline_not_hold_deadline :
    (holdSlot "s1" "u1" 0 true [availS1]).1 = [heldByU1] ∧
    heldByU1.hold_expires_at = some 420000 ∧
    countdownExpiresAt 1000 = 421000 ∧ (421000 : Nat) ≠ 420000 := by
  exact ⟨rfl, rfl, rfl, by decide⟩

/-- Claim C7 (amended): the countdown notifier is started with a deadline of
render-time `now + 7 minutes` (not the hold's acquisition deadline); the
notifier — modelled from the spec, its component source being absent — fires
the expiry signal exactly once when ticks reach the deadline, never more than
once, and zero times when every tick precedes the deadline or the timer was
cancelled; and the expiry handler clears the client's held slot and issues
the store release for it. -/
theorem countdown_contract (renderNow D : Nat) (times : List Nat)
    (u : String) (h : BookingSlot) (cs : ClientState)
    (store : List BookingSlot) (hcs : cs.heldSlot = some h) :
    countdownExpiresAt renderNow = renderNow + 7 * 60 * 1000 ∧
    (notifierRun ⟨D, false⟩ times).2 ≤ 1 ∧
    ((∃ t ∈ times, D ≤ t) → (notifierRun ⟨D, false⟩ times).2 = 1) ∧
    ((∀ t ∈ times, t < D) → (notifierRun ⟨D, false⟩ times).2 = 0) ∧
    (∀ ts, (notifierRun ⟨D, true⟩ ts).2 = 0) ∧
    (handleSlotExpired (some u) true cs store).1 = ⟨none, none⟩ ∧
    (handleSlotExpired (some u) true cs store).2 =
      (releaseSlot h.id u true store).1 := by
  refine ⟨rfl, ?_, ?_, ?_, ?_, ?_, ?_⟩
  · rw [notifierRun_count]
    split
    · exact Nat.le_refl 1
    · exact Nat.zero_le 1
  · intro hex
    rw [notifierRun_count]
    rw [if_pos]
    rcases hex with ⟨t, ht, hDt⟩
    exact List.any_eq_true.mpr ⟨t, ht, decide_eq_true hDt⟩
  · intro hall
    rw [notifierRun_count]
    rw [if_neg]
    intro hany
    rcases List.any_eq_true.mp hany with ⟨t, ht, hDt⟩
    exact Nat.lt_irrefl t (Nat.lt_of_lt_of_le (hall t ht) (of_decide_eq_true hDt))
  · intro ts
    rw [notifierRun_stopped ⟨D, true⟩ ts rfl]
  · unfold handleSlotExpired
    rw [hcs]
  · unfold handleSlotExpired
    rw [hcs]

/-- Witness for the C7 theorem: with deadline 5 and tick times 3, 6, 9 the
notifier fires exactly once. -/
theorem countdown_contract_witness :
    (notifierRun ⟨5, false⟩ [3, 6, 9]).2 = 1 :=
  (countdown_contract 0 5 [3, 6, 9] "u1" heldByU1
    ⟨some heldByU1, some heldByU1⟩ [heldByU1] rfl).2.2.1
    ⟨6, by decide, by decide⟩

/-! ### Claims C9 and C10: helper lemmas about `handleSlotSelect` -/

lemma handleSlotSelect_store (u : String) (slot : BookingSlot) (now : Nat)
    (releaseOk holdOk : Bool) (cs : ClientState) (store : List BookingSlot) :
    (handleSlotSelect (some u) slot now releaseOk holdOk cs store).store =
      (holdSlot slot.id u now holdOk
        (match cs.heldSlot with
          | some h =>
            if h.id ≠ slot.id then (releaseSlot h.id u releaseOk store).1 else store
          | none => store)).1 := by
  unfold handleSlotSelect
  dsimp only
  split <;> rfl

lemma holdSlot_map_id (slotId userId : String) (now : Nat) (ok : Bool)
    (l : List BookingSlot) :
    ((holdSlot slotId userId now ok l).1).map BookingSlot.id =
      l.map BookingSlot.id := by
  cases ok with
  | false => rfl
  | true =>
    show (l.map (holdUpdate slotId userId now)).map BookingSlot.id = _
    rw [List.map_map]
    exact List.map_congr_left fun s _ => holdUpdate_id slotId userId now s

lemma releaseSlot_map_id (slotId userId : String) (ok : Bool)
    (l : List BookingSlot) :
    ((releaseSlot slotId userId ok l).1).map BookingSlot.id =
      l.map BookingSlot.id := by
  cases ok with
  | false => rfl
  | true =>
    show (l.map (releaseUpdate slotId userId)).map BookingSlot.id = _
    rw [List.map_map]
    exact List.map_congr_left fun s _ => releaseUpdate_id slotId userId s

lemma release_then_hold_only_new (u : String) (slot h : BookingSlot)
    (now : Nat) (holdOk : Bool) (store : List BookingSlot)
    (hprior : ∀ s ∈ store, s.held_by = some u → s.id = h.id)
    (M : List BookingSlot)
    (hM : M = if h.id ≠ slot.id then (releaseSlot h.id u true store).1 else store) :
    ∀ s1 ∈ (holdSlot slot.id u now holdOk M).1,
      s1.held_by = some u → s1.id = slot.id := by
  have hS1 : ∀ s1 ∈ M, s1.held_by = some u → s1.id = slot.id := by
    subst hM
    by_cases hid : h.id = slot.id
    · rw [if_neg (by simpa using hid)]
      intro s1 hs1 hheld
      rw [← hid]
      exact hprior s1 hs1 hheld
    · rw [if_pos hid]
      intro s1 hs1 hheld
      exfalso
      rcases List.mem_map.mp hs1 with ⟨t, ht, rfl⟩
      by_cases hc : t.id = h.id ∧ t.held_by = some u
      · rw [show releaseUpdate h.id u t =
            { t with status := SlotStatus.available, held_by := none,
                     hold_expires_at := none } from by
            unfold releaseUpdate; rw [if_pos hc]] at hheld
        exact Option.noConfusion hheld
      · rw [show releaseUpdate h.id u t = t from by
            unfold releaseUpdate; rw [if_neg hc]] at hheld
        exact hc ⟨hprior t ht hheld, hheld⟩
  cases holdOk with
  | false => exact hS1
  | true =>
    intro s1 hs1 hheld
    rcases List.mem_map.mp hs1 with ⟨t, ht, rfl⟩
    by_cases hc : t.id = slot.id ∧ t.status = SlotStatus.available
    · rw [show holdUpdate slot.id u now t =
          { t with status := SlotStatus.held, held_by := some u,
                   hold_expires_at := some (now + 7 * 60 * 1000) } from by
          unfold holdUpdate; rw [if_pos hc]]
      exact hc.1
    · rw [show holdUpdate slot.id u now t = t from by
          unfold holdUpdate; rw [if_neg hc]] at hheld ⊢
      exact hS1 t ht hheld

/-- Claim C9 (confirmed): within one booking flow the user holds at most one
slot.  If the client-side `heldSlot` names the slot `h` and every store
record currently held by the user is that slot, then after selecting any
slot: every record the user holds in the resulting store is the newly
selected slot (the prior hold having been released first, by the release
call that `handleSlotSelect` issues before the new hold), and — when slot
ids are unique — the user holds at most one record: any two records held by
the user coincide. -/
theorem user_holds_at_most_one_slot (u : String) (slot h : BookingSlot)
    (now : Nat) (holdOk : Bool) (cs : ClientState) (store : List BookingSlot)
    (hcs : cs.heldSlot = some h)
    (hprior : ∀ s ∈ store, s.held_by = some u → s.id = h.id) :
    (∀ s1 ∈ (handleSlotSelect (some u) slot now true holdOk cs store).store,
      s1.held_by = some u → s1.id = slot.id) ∧
    ((store.map BookingSlot.id).Nodup →
      ∀ s1 ∈ (handleSlotSelect (some u) slot now true holdOk cs store).store,
        ∀ s2 ∈ (handleSlotSelect (some u) slot now true holdOk cs store).store,
          s1.held_by = some u → s2.held_by = some u → s1 = s2) := by
  have hstore := handleSlotSelect_store u slot now true holdOk cs store
  rw [hcs] at hstore
  dsimp only at hstore
  have honly :
      ∀ s1 ∈ (handleSlotSelect (some u) slot now true holdOk cs store).store,
        s1.held_by = some u → s1.id = slot.id := by
    rw [hstore]
    exact release_then_hold_only_new u slot h now holdOk store hprior _ rfl
  refine ⟨honly, ?_⟩
  intro hnodup s1 hs1 s2 hs2 h1 h2
  have hids :
      ((handleSlotSelect (some u) slot now true holdOk cs store).store).map
        BookingSlot.id = store.map BookingSlot.id := by
    rw [hstore, holdSlot_map_id]
    by_cases hid : h.id = slot.id
    · rw [if_neg (by simpa using hid)]
    · rw [if_pos hid, releaseSlot_map_id]
  have hnodup2 :
      (((handleSlotSelect (some u) slot now true holdOk cs store).store).map
        BookingSlot.id).Nodup := by
    rw [hids]; exact hnodup
  exact List.inj_on_of_nodup_map hnodup2 hs1 hs2
    ((honly s1 hs1 h1).trans (honly s2 hs2 h2).symm)

/-- Witness for the C9 theorem: user `u1` holds `s1`; selecting `s2` leaves
every record held by `u1` in the store with id `s2`. -/
theorem user_holds_at_most_one_slot_witness :
    (⟨some heldByU1, some heldByU1⟩ : ClientState).heldSlot = some heldByU1 ∧
    ∀ s1 ∈ (handleSlotSelect (some "u1") availS2 0 true true
      ⟨some heldByU1, some heldByU1⟩ [heldByU1, availS2]).store,
      s1.held_by = some "u1" → s1.id = availS2.id :=
  ⟨rfl,
    (user_holds_at_most_one_slot "u1" availS2 heldByU1 0 true
      ⟨some heldByU1, some heldByU1⟩ [heldByU1, availS2] rfl (by decide)).1⟩

/-! ### Claim C10 -/

/-- Claim C10 (confirmed): on the failure path of a slot switch, client and
store state diverge.  If the user holds `h` (client `heldSlot = h`, and every
record the user holds in the store is `h`), selects a different slot, the
release round-trip succeeds but the new hold's store call fails, then:
`handleSlotSelect` reports failure, leaves the client state unchanged — so
`heldSlot` still names `h` — yet the store was already updated by the
release issued before the acquire (the resulting store is exactly the
release's result) and no record in it is held by the user any more; the
prior hold is not re-acquired. -/
theorem stale_client_hold_after_failed_acquire (u : String)
    (h slot : BookingSlot) (now : Nat) (cs : ClientState)
    (store : List BookingSlot)
    (hcs : cs.heldSlot = some h) (hne : h.id ≠ slot.id)
    (hprior : ∀ s ∈ store, s.held_by = some u → s.id = h.id) :
    (handleSlotSelect (some u) slot now true false cs store).succeeded = false ∧
    (handleSlotSelect (some u) slot now true false cs store).client = cs ∧
    (handleSlotSelect (some u) slot now true false cs store).client.heldSlot =
      some h ∧
    (handleSlotSelect (some u) slot now true false cs store).refreshed = true ∧
    (handleSlotSelect (some u) slot now true false cs store).store =
      (releaseSlot h.id u true store).1 ∧
    (∀ s1 ∈ (handleSlotSelect (some u) slot now true false cs store).store,
      s1.held_by ≠ some u) := by
  have hout :
      handleSlotSelect (some u) slot now true false cs store =
        ⟨cs, (releaseSlot h.id u true store).1, false, true⟩ := by
    unfold handleSlotSelect
    dsimp only
    rw [hcs]
    dsimp only
    rw [if_pos hne]
    rfl
  refine ⟨by rw [hout], by rw [hout], by rw [hout, hcs], by rw [hout],
    by rw [hout], ?_⟩
  rw [hout]
  intro s1 hs1 hheld
  dsimp only at hs1
  rcases List.mem_map.mp hs1 with ⟨t, ht, rfl⟩
  by_cases hc : t.id = h.id ∧ t.held_by = some u
  · rw [show releaseUpdate h.id u t =
        { t with status := SlotStatus.available, held_by := none,
                 hold_expires_at := none } from by
        unfold releaseUpdate; rw [if_pos hc]] at hheld
    exact Option.noConfusion hheld
  · rw [show releaseUpdate h.id u t = t from by
        unfold releaseUpdate; rw [if_neg hc]] at hheld
    exact hc ⟨hprior t ht hheld, hheld⟩

/-- Witness for the C10 theorem: `u1` holds `s1`, selects `s2`, the hold call
fails — the client still names `s1` as held while the store no longer has any
record held by `u1`. -/
theorem stale_client_hold_witness :
    (handleSlotSelect (some "u1") availS2 0 true false
      ⟨some heldByU1, some heldByU1⟩ [heldByU1]).client.heldSlot =
        some heldByU1 ∧
    ∀ s1 ∈ (handleSlotSelect (some "u1") availS2 0 true false
      ⟨some heldByU1, some heldByU1⟩ [heldByU1]).store,
      s1.held_by ≠ some "u1" := by
  have happ := stale_client_hold_after_failed_acquire "u1" heldByU1 availS2 0
    ⟨some heldByU1, some heldByU1⟩ [heldByU1] rfl (by decide) (by decide)
  exact ⟨happ.2.2.1, happ.2.2.2.2.2⟩
